import Mathlib

/-
Verification of the football cache-and-reshape server (server.js).

The embedding translates the request-time shaping of live matches and
fixtures, the four refresh tasks, the NodeCache-backed cache store, and
the read-only API routes.  JavaScript optional chaining (`a?.b`) becomes
`Option.bind` / `Option.map`, and the JavaScript `x || d` default on
string- or number-valued expressions becomes an explicit falsy-aware
default (undefined and the empty string / zero are falsy).
-/

namespace Football

/-- JavaScript `x || d` for a string-valued `x` that may be `undefined`:
`undefined` and the empty string are falsy, so both fall back to `d`. -/
def jsOrStr (v : Option String) (d : String) : String :=
  match v with
  | none => d
  | some s => if s = "" then d else s

/-- JavaScript `String.prototype.toUpperCase` on the character list. -/
def jsToUpperCase (s : String) : String :=
  ⟨s.data.map Char.toUpper⟩

/-- The `meta` object a participant carries; `meta.location` is
`"home"` or `"away"` for the two teams of a match. -/
structure ParticipantMeta where
  location : String
deriving DecidableEq, Repr

/-- One entry of `match.participants` / `fixture.participants`. -/
structure Participant where
  id : Nat
  meta : ParticipantMeta
deriving DecidableEq, Repr

/-- One entry of `match.scores`; `goals` may be absent upstream
(`localTeamScore?.goals || 0` defaults it). -/
structure ScoreEntry where
  participant_id : Nat
  goals : Option Nat
deriving DecidableEq, Repr

/-- The `state` object; its inner `state` string may be absent
(the handler uses `match.state?.state?...`). -/
structure StateObj where
  state : Option String
deriving DecidableEq, Repr

/-- The `round` object; the handler reads `match.round?.name`. -/
structure RoundObj where
  name : Option String
deriving DecidableEq, Repr

/-- One entry of `match.periods`; the handler looks for `type == "2hg"`
and reads its `minutes`. -/
structure Period where
  type : String
  minutes : Nat
deriving DecidableEq, Repr

/-- An upstream live-scores record as the livescores route consumes it:
`participants` and `scores` are required arrays, the rest is optional
(the handler guards them with `?.`). -/
structure RawMatch where
  id : Nat
  league_id : Option Nat
  round : Option RoundObj
  starting_at : Option String
  state : Option StateObj
  periods : Option (List Period)
  participants : List Participant
  scores : List ScoreEntry
deriving DecidableEq, Repr

/-- An upstream fixtures record as the fixtures route consumes it. -/
structure RawFixture where
  id : Nat
  league_id : Option Nat
  round : Option RoundObj
  starting_at : Option String
  state : Option StateObj
  participants : List Participant
deriving DecidableEq, Repr

/-- One row of the shaped `scores` array of a live match:
`{ team_id: localTeam?.id, score: localTeamScore?.goals || 0 }`. -/
structure ShapedScoreRow where
  team_id : Option Nat
  score : Nat
deriving DecidableEq, Repr

/-- The public live-match record built by the livescores route. -/
structure ShapedMatch where
  id : Nat
  league_id : Option Nat
  round : String
  localteam_id : Option Nat
  visitorteam_id : Option Nat
  starting_at : Option String
  status : String
  minute : Option Nat
  live : Bool
  scores : List ShapedScoreRow
  participants : List Participant
deriving DecidableEq, Repr

/-- One row of the shaped `scores` array of a fixture:
`{ participant_id: localTeam?.id, goals: 0 }`. -/
structure FixtureScoreRow where
  participant_id : Option Nat
  goals : Nat
deriving DecidableEq, Repr

/-- The public fixture record built by the fixtures route.  Note that
`round` is passed through as the upstream object, not projected to its
`name`. -/
structure ShapedFixture where
  id : Nat
  league_id : Option Nat
  round : Option RoundObj
  starting_at : Option String
  status : String
  live : Bool
  participants : List Participant
  scores : List FixtureScoreRow
deriving DecidableEq, Repr

/-- The per-match body of the livescores route handler
(src/unnamed/part_000, lines 124-145). -/
def shapeMatch (m : RawMatch) : ShapedMatch :=
  let localTeam := m.participants.find? (fun p => p.meta.location == "home")
  let visitorTeam := m.participants.find? (fun p => p.meta.location == "away")
  let localTeamScore :=
    m.scores.find? (fun s => Option.any (fun t => s.participant_id == t.id) localTeam)
  let visitorTeamScore :=
    m.scores.find? (fun s => Option.any (fun t => s.participant_id == t.id) visitorTeam)
  { id := m.id
    league_id := m.league_id
    round := jsOrStr (m.round.bind RoundObj.name) "N/A"
    localteam_id := localTeam.map Participant.id
    visitorteam_id := visitorTeam.map Participant.id
    starting_at := m.starting_at
    status := jsOrStr ((m.state.bind StateObj.state).map jsToUpperCase) "N/A"
    minute := (m.periods.bind (fun ps => ps.find? (fun p => p.type == "2hg"))).map Period.minutes
    live := (m.state.bind StateObj.state) == some "live"
    scores :=
      [⟨localTeam.map Participant.id, (localTeamScore.bind ScoreEntry.goals).getD 0⟩,
       ⟨visitorTeam.map Participant.id, (visitorTeamScore.bind ScoreEntry.goals).getD 0⟩]
    participants := m.participants }

/-- The per-fixture body of the fixtures route handler
(src/unnamed/part_000, lines 152-168). -/
def shapeFixture (f : RawFixture) : ShapedFixture :=
  let localTeam := f.participants.find? (fun p => p.meta.location == "home")
  let visitorTeam := f.participants.find? (fun p => p.meta.location == "away")
  { id := f.id
    league_id := f.league_id
    round := f.round
    starting_at := f.starting_at
    status := jsOrStr ((f.state.bind StateObj.state).map jsToUpperCase) "N/A"
    live := false
    participants := f.participants
    scores :=
      [⟨localTeam.map Participant.id, 0⟩,
       ⟨visitorTeam.map Participant.id, 0⟩] }

/-- An upstream league record; the refresh task projects it to its
summary form, dropping the remaining fields. -/
structure RawLeague where
  id : Nat
  name : String
  image_path : String
  short_code : Option String
  country_id : Option Nat
deriving DecidableEq, Repr

/-- The cached league projection `{ id, name, image_path }`. -/
structure LeagueSummary where
  id : Nat
  name : String
  image_path : String
deriving DecidableEq, Repr

/-- An upstream team record; the refresh task projects it to its
summary form, dropping the remaining fields. -/
structure RawTeam where
  id : Nat
  name : String
  image_path : String
  short_code : Option String
  country_id : Option Nat
deriving DecidableEq, Repr

/-- The cached team projection `{ id, name, image_path }`. -/
structure TeamSummary where
  id : Nat
  name : String
  image_path : String
deriving DecidableEq, Repr

/-- The league projection performed inside `fetchFootballLeagues`. -/
def projectLeague (l : RawLeague) : LeagueSummary :=
  ⟨l.id, l.name, l.image_path⟩

/-- The team projection performed inside `fetchFootballTeams`. -/
def projectTeam (t : RawTeam) : TeamSummary :=
  ⟨t.id, t.name, t.image_path⟩

/-- Modelled from the spec: the store behind `appCache` is the external
node-cache library (an npm dependency whose source is not in the
repository), configured `stdTTL: 60 * 15, checkperiod: 120`.  Per the
spec's Cache Store contract, one key holds at most one entry recording
the stored value and the second of its last `set`; `get` applies the
lazy expiry check `now - storedAt < ttl` itself, independently of the
background sweep. -/
structure NodeCache (α : Type) where
  entry : Option (α × Nat)
deriving DecidableEq, Repr

/-- The configured standard time-to-live, in seconds (`stdTTL: 60 * 15`). -/
def stdTTL : Nat := 60 * 15

/-- The configured background sweep period, in seconds (`checkperiod: 120`). -/
def checkperiod : Nat := 120

/-- `appCache.set(key, v)` at time `now`: unconditionally replaces the
entry for the key, restamping `storedAt`. -/
def NodeCache.set (_c : NodeCache α) (v : α) (now : Nat) : NodeCache α :=
  ⟨some (v, now)⟩

/-- `appCache.get(key)` at time `now`: the value while strictly less
than `stdTTL` seconds have elapsed since the last `set`, else absent. -/
def NodeCache.get (c : NodeCache α) (now : Nat) : Option α :=
  match c.entry with
  | none => none
  | some (v, t) => if now - t < stdTTL then some v else none

/-- The background expiry sweep run every `checkperiod` seconds: evicts
the entry iff it has already expired at sweep time `now`. -/
def NodeCache.sweep (c : NodeCache α) (now : Nat) : NodeCache α :=
  match c.entry with
  | none => c
  | some (_, t) => if now - t < stdTTL then c else ⟨none⟩

/-- The four keys of `appCache`, each with its typed payload. -/
structure AppCache where
  leagues : NodeCache (List LeagueSummary)
  teams : NodeCache (List TeamSummary)
  liveScores : NodeCache (List RawMatch)
  fixtures : NodeCache (List RawFixture)
deriving DecidableEq, Repr

/-- The cache at process start, before any refresh has run. -/
def emptyAppCache : AppCache :=
  ⟨⟨none⟩, ⟨none⟩, ⟨none⟩, ⟨none⟩⟩

/-- Outcome of one upstream `axios.get`: a parsed JSON body, or a thrown
error (network failure, non-2xx, unparsable body). -/
inductive FetchOutcome (β : Type) where
  | ok (body : β)
  | err
deriving DecidableEq, Repr

/-- The `/leagues` response body; the `data` field may be missing. -/
structure LeaguesBody where
  data : Option (List RawLeague)
deriving DecidableEq, Repr

/-- The `/teams` response body; the `data` field may be missing. -/
structure TeamsBody where
  data : Option (List RawTeam)
deriving DecidableEq, Repr

/-- The `/livescores` response body; the `data` field may be missing. -/
structure LiveScoresBody where
  data : Option (List RawMatch)
deriving DecidableEq, Repr

/-- The `/fixtures` response body; the `data` field may be missing. -/
structure FixturesBody where
  data : Option (List RawFixture)
deriving DecidableEq, Repr

/-- One run of the leagues refresh task as a transition on the cache.
`if (!API_TOKEN) return;` skips everything; a thrown fetch is caught
with only a log; a body without `data` makes `data.data.map` throw a
TypeError that the same catch swallows, so no write happens; on success
the projected list is written under `"leagues"`. -/
def fetchFootballLeagues (tokenPresent : Bool) (r : FetchOutcome LeaguesBody)
    (cache : AppCache) (now : Nat) : AppCache :=
  if !tokenPresent then cache
  else
    match r with
    | .err => cache
    | .ok body =>
      match body.data with
      | none => cache
      | some leagues =>
        { cache with leagues := cache.leagues.set (leagues.map projectLeague) now }

/-- One run of the teams refresh task; same structure as the leagues
task, writing the projected list under `"teams"`. -/
def fetchFootballTeams (tokenPresent : Bool) (r : FetchOutcome TeamsBody)
    (cache : AppCache) (now : Nat) : AppCache :=
  if !tokenPresent then cache
  else
    match r with
    | .err => cache
    | .ok body =>
      match body.data with
      | none => cache
      | some teams =>
        { cache with teams := cache.teams.set (teams.map projectTeam) now }

/-- One run of the live-scores refresh task.  On a successful fetch the
handler writes `data.data || []`: a missing `data` field is NOT treated
as a failure, it writes the empty list under `"liveScores"`. -/
def fetchFootballLiveScores (tokenPresent : Bool) (r : FetchOutcome LiveScoresBody)
    (cache : AppCache) (now : Nat) : AppCache :=
  if !tokenPresent then cache
  else
    match r with
    | .err => cache
    | .ok body =>
      { cache with liveScores := cache.liveScores.set (body.data.getD []) now }

/-- One run of the fixtures refresh task; like the live-scores task it
writes `data.data || []` under `"fixtures"` on any successful fetch. -/
def fetchFootballFixtures (tokenPresent : Bool) (r : FetchOutcome FixturesBody)
    (cache : AppCache) (now : Nat) : AppCache :=
  if !tokenPresent then cache
  else
    match r with
    | .err => cache
    | .ok body =>
      { cache with fixtures := cache.fixtures.set (body.data.getD []) now }

/-- An HTTP response of one data route: `res.json({ data: ... })`
always answers with status 200 and the `{ data: ... }` envelope. -/
structure ApiResponse (α : Type) where
  status : Nat
  data : List α
deriving DecidableEq, Repr

/-- `GET /api/football/livescores`: read `"liveScores"` (empty list when
absent), shape every match, answer 200. -/
def livescoresRoute (cache : AppCache) (now : Nat) : ApiResponse ShapedMatch :=
  ⟨200, ((cache.liveScores.get now).getD []).map shapeMatch⟩

/-- `GET /api/football/fixtures`: read `"fixtures"` (empty list when
absent), shape every fixture, answer 200. -/
def fixturesRoute (cache : AppCache) (now : Nat) : ApiResponse ShapedFixture :=
  ⟨200, ((cache.fixtures.get now).getD []).map shapeFixture⟩

/-- `GET /api/football/teams`: the cached summaries as-is (empty list
when absent), status 200. -/
def teamsRoute (cache : AppCache) (now : Nat) : ApiResponse TeamSummary :=
  ⟨200, (cache.teams.get now).getD []⟩

/-- `GET /api/football/leagues`: the cached summaries as-is (empty list
when absent), status 200. -/
def leaguesRoute (cache : AppCache) (now : Nat) : ApiResponse LeagueSummary :=
  ⟨200, (cache.leagues.get now).getD []⟩

/-- A live match with home team 10 (2 goals), away team 20 (1 goal),
state `live`, a `2hg` period at minute 57. -/
def sampleLiveMatch : RawMatch :=
  { id := 33, league_id := some 8, round := some ⟨some "3"⟩,
    starting_at := some "2026-10-11 15:00:00",
    state := some ⟨some "live"⟩, periods := some [⟨"2hg", 57⟩],
    participants := [⟨10, ⟨"home"⟩⟩, ⟨20, ⟨"away"⟩⟩],
    scores := [⟨10, some 2⟩, ⟨20, some 1⟩] }

/-- A match whose only participant is neither home nor away. -/
def noHomeAwayMatch : RawMatch :=
  { id := 2, league_id := none, round := none, starting_at := none,
    state := some ⟨some "live"⟩, periods := none,
    participants := [⟨5, ⟨"neutral"⟩⟩], scores := [⟨5, some 3⟩] }

/-- A match whose `state.state` is present but is the empty string. -/
def emptyStateMatch : RawMatch :=
  { id := 3, league_id := none, round := none, starting_at := none,
    state := some ⟨some ""⟩, periods := none,
    participants := [], scores := [] }

/-- A match whose `round.name` is present but is the empty string. -/
def emptyRoundMatch : RawMatch :=
  { id := 4, league_id := none, round := some ⟨some ""⟩, starting_at := none,
    state := none, periods := some [], participants := [], scores := [] }

/-- A cache whose `liveScores` key holds one match, stored at second 0. -/
def liveCacheBefore : AppCache :=
  { emptyAppCache with liveScores := ⟨some ([sampleLiveMatch], 0)⟩ }

/-- Upper-casing a string yields the empty string exactly for the empty
string (`toUpperCase` is character-wise, so it preserves length). -/
theorem jsToUpperCase_eq_empty_iff (s : String) : jsToUpperCase s = "" ↔ s = "" := by
  constructor
  · intro h
    cases s with
    | mk l =>
      cases l with
      | nil => rfl
      | cons c cs => exact absurd (congrArg String.data h) (by simp [jsToUpperCase])
  · intro h
    subst h
    rfl

/-- C1: when a match has no participant tagged `home` and none tagged
`away`, shaping still produces a record whose `localteam_id`,
`visitorteam_id` and both `scores[_].team_id` fields are absent, and
the livescores route still answers 200 with one shaped record per
cached match. -/
theorem claim_C1_missing_participants (m : RawMatch) (cache : AppCache) (now : Nat)
    (hh : m.participants.find? (fun p => p.meta.location == "home") = none)
    (ha : m.participants.find? (fun p => p.meta.location == "away") = none) :
    (shapeMatch m).localteam_id = none
    ∧ (shapeMatch m).visitorteam_id = none
    ∧ (shapeMatch m).scores.map ShapedScoreRow.team_id = [none, none]
    ∧ (livescoresRoute cache now).status = 200
    ∧ (livescoresRoute cache now).data.length
        = ((cache.liveScores.get now).getD []).length := by
  refine ⟨?_, ?_, ?_, rfl, ?_⟩
  · simp [shapeMatch, hh]
  · simp [shapeMatch, ha]
  · simp [shapeMatch, hh, ha]
  · simp [livescoresRoute]

/-- C1 witness: the match with a single `neutral` participant. -/
theorem claim_C1_missing_participants_witness :
    (noHomeAwayMatch.participants.find? (fun p => p.meta.location == "home") = none)
    ∧ (noHomeAwayMatch.participants.find? (fun p => p.meta.location == "away") = none)
    ∧ ((shapeMatch noHomeAwayMatch).localteam_id = none
       ∧ (shapeMatch noHomeAwayMatch).visitorteam_id = none
       ∧ (shapeMatch noHomeAwayMatch).scores.map ShapedScoreRow.team_id = [none, none]
       ∧ (livescoresRoute emptyAppCache 0).status = 200
       ∧ (livescoresRoute emptyAppCache 0).data.length
           = ((emptyAppCache.liveScores.get 0).getD []).length) :=
  ⟨by decide, by decide,
   claim_C1_missing_participants noHomeAwayMatch emptyAppCache 0 (by decide) (by decide)⟩

/-- C2: the configured ttl is 900 seconds; after `set` at `t0`, `get`
at `now` returns the stored value exactly while `now - t0 < stdTTL` and
absent afterwards; and a background sweep run at any time `m ≤ now`
never changes what `get` returns at `now`. -/
theorem claim_C2_cache_ttl (α : Type) (c : NodeCache α) (v : α) (t0 now m : Nat)
    (hm : m ≤ now) :
    stdTTL = 900
    ∧ (c.set v t0).get now = (if now - t0 < stdTTL then some v else none)
    ∧ (c.sweep m).get now = c.get now := by
  refine ⟨rfl, rfl, ?_⟩
  obtain ⟨entry⟩ := c
  cases entry with
  | none => rfl
  | some p =>
    obtain ⟨w, t⟩ := p
    by_cases h : m - t < stdTTL
    · simp [NodeCache.sweep, h]
    · have h2 : ¬ (now - t < stdTTL) := by
        intro hlt
        exact h (lt_of_le_of_lt (Nat.sub_le_sub_right hm t) hlt)
      simp [NodeCache.sweep, NodeCache.get, h, h2]

/-- C2 witness: one cell, value 7 stored at second 0, read at second
1000 (expired), sweep run at second 5. -/
theorem claim_C2_cache_ttl_witness :
    5 ≤ 1000
    ∧ (stdTTL = 900
       ∧ (NodeCache.set (⟨none⟩ : NodeCache Nat) 7 0).get 1000
           = (if 1000 - 0 < stdTTL then some 7 else none)
       ∧ (NodeCache.sweep (⟨none⟩ : NodeCache Nat) 5).get 1000
           = NodeCache.get (⟨none⟩ : NodeCache Nat) 1000) :=
  ⟨by decide, claim_C2_cache_ttl Nat ⟨none⟩ 7 0 1000 5 (by decide)⟩

/-- C3 counterexample: a live-scores refresh whose body lacks the
`data` field writes the empty list over a previously cached match
(`appCache.set("liveScores", data.data || [])`), so the previous value
does not persist. -/
theorem claim_C3_counterexample :
    (fetchFootballLiveScores true (FetchOutcome.ok ⟨none⟩) liveCacheBefore 5).liveScores.entry
        = some ([], 5)
    ∧ liveCacheBefore.liveScores.entry = some ([sampleLiveMatch], 0)
    ∧ fetchFootballLiveScores true (FetchOutcome.ok ⟨none⟩) liveCacheBefore 5 ≠ liveCacheBefore :=
  ⟨rfl, rfl, by decide⟩

/-- C3 amended: a body without `data` makes the leagues and teams tasks
fail with no cache write, but the live-scores and fixtures tasks treat
it as an empty list and overwrite their key with `[]`. -/
theorem claim_C3_missing_data_field (cache : AppCache) (now : Nat) :
    fetchFootballLeagues true (FetchOutcome.ok ⟨none⟩) cache now = cache
    ∧ fetchFootballTeams true (FetchOutcome.ok ⟨none⟩) cache now = cache
    ∧ fetchFootballLiveScores true (FetchOutcome.ok ⟨none⟩) cache now
        = { cache with liveScores := cache.liveScores.set [] now }
    ∧ fetchFootballFixtures true (FetchOutcome.ok ⟨none⟩) cache now
        = { cache with fixtures := cache.fixtures.set [] now } :=
  ⟨rfl, rfl, rfl, rfl⟩

/-- C4 counterexample: a match whose `state.state` is present but equal
to `""` is shaped to status `"N/A"`, not to the upper-cased value `""`
(the `|| "N/A"` default also fires on the falsy empty string). -/
theorem claim_C4_counterexample :
    emptyStateMatch.state.bind StateObj.state = some ""
    ∧ (shapeMatch emptyStateMatch).status = "N/A"
    ∧ (shapeMatch emptyStateMatch).status ≠ jsToUpperCase "" :=
  ⟨rfl, rfl, by decide⟩

/-- C4 amended: the shaped status is the upper-cased `state.state` when
that field is present and non-empty, and `"N/A"` when `state` or
`state.state` is absent or the empty string. -/
theorem claim_C4_status (m : RawMatch) :
    (shapeMatch m).status =
      (match m.state.bind StateObj.state with
       | none => "N/A"
       | some s => if s = "" then "N/A" else jsToUpperCase s) := by
  show jsOrStr ((m.state.bind StateObj.state).map jsToUpperCase) "N/A" = _
  cases h : m.state.bind StateObj.state with
  | none => rfl
  | some s =>
    by_cases hs : s = ""
    · subst hs
      rfl
    · have hne : jsToUpperCase s ≠ "" := fun hc => hs ((jsToUpperCase_eq_empty_iff s).mp hc)
      simp [jsOrStr, hs, hne]

/-- C5: a refresh run whose upstream fetch throws leaves the whole
cache exactly as it was, for each of the four tasks. -/
theorem claim_C5_failed_fetch_preserves_cache (cache : AppCache) (now : Nat) :
    fetchFootballLeagues true FetchOutcome.err cache now = cache
    ∧ fetchFootballTeams true FetchOutcome.err cache now = cache
    ∧ fetchFootballLiveScores true FetchOutcome.err cache now = cache
    ∧ fetchFootballFixtures true FetchOutcome.err cache now = cache :=
  ⟨rfl, rfl, rfl, rfl⟩

/-- C6: the concrete live match (home 10 scoring 2, away 20 scoring 1,
state `live`) shapes to status `"LIVE"`, `live = true`, and scores
`[{team_id: 10, score: 2}, {team_id: 20, score: 1}]`. -/
theorem claim_C6_live_match_example :
    (shapeMatch sampleLiveMatch).status = "LIVE"
    ∧ (shapeMatch sampleLiveMatch).live = true
    ∧ (shapeMatch sampleLiveMatch).scores = [⟨some 10, 2⟩, ⟨some 20, 1⟩] := by
  decide

/-- C7: every shaped fixture has `live = false`, passes `round` through
unprojected, and pairs the home and away participant ids (in that
order) each with `goals = 0`. -/
theorem claim_C7_fixture_shape (f : RawFixture) :
    (shapeFixture f).live = false
    ∧ (shapeFixture f).round = f.round
    ∧ (shapeFixture f).scores =
        [⟨(f.participants.find? (fun p => p.meta.location == "home")).map Participant.id, 0⟩,
         ⟨(f.participants.find? (fun p => p.meta.location == "away")).map Participant.id, 0⟩] :=
  ⟨rfl, rfl, rfl⟩

/-- C8: with the API token absent every refresh task is the identity on
the cache whatever the upstream would have answered, and on the empty
cache all four data routes answer 200 with `{ data: [] }`. -/
theorem claim_C8_missing_token (r1 : FetchOutcome LeaguesBody) (r2 : FetchOutcome TeamsBody)
    (r3 : FetchOutcome LiveScoresBody) (r4 : FetchOutcome FixturesBody)
    (cache : AppCache) (now : Nat) :
    fetchFootballLeagues false r1 cache now = cache
    ∧ fetchFootballTeams false r2 cache now = cache
    ∧ fetchFootballLiveScores false r3 cache now = cache
    ∧ fetchFootballFixtures false r4 cache now = cache
    ∧ teamsRoute emptyAppCache now = ⟨200, []⟩
    ∧ leaguesRoute emptyAppCache now = ⟨200, []⟩
    ∧ livescoresRoute emptyAppCache now = ⟨200, []⟩
    ∧ fixturesRoute emptyAppCache now = ⟨200, []⟩ :=
  ⟨rfl, rfl, rfl, rfl, rfl, rfl, rfl, rfl⟩

/-- C9 counterexample: a match whose `round.name` is present but equal
to `""` is shaped to round `"N/A"`, not to the name `""` (the
`|| 'N/A'` default also fires on the falsy empty string). -/
theorem claim_C9_counterexample :
    emptyRoundMatch.round.bind RoundObj.name = some ""
    ∧ (shapeMatch emptyRoundMatch).round = "N/A"
    ∧ (shapeMatch emptyRoundMatch).round ≠ "" :=
  ⟨rfl, rfl, by decide⟩

/-- C9 amended: the shaped round is the round's `name` when present and
non-empty, else `"N/A"`; the shaped minute is the `minutes` of the
first period of type `2hg`, and absent when `periods` is missing or has
no such entry. -/
theorem claim_C9_round_and_minute (m : RawMatch) :
    (shapeMatch m).round =
      (match m.round.bind RoundObj.name with
       | none => "N/A"
       | some nm => if nm = "" then "N/A" else nm)
    ∧ (shapeMatch m).minute =
        ((m.periods.getD []).find? (fun p => p.type == "2hg")).map Period.minutes := by
  constructor
  · show jsOrStr (m.round.bind RoundObj.name) "N/A" = _
    cases h : m.round.bind RoundObj.name with
    | none => rfl
    | some nm => rfl
  · show (m.periods.bind (fun ps => ps.find? (fun p => p.type == "2hg"))).map Period.minutes = _
    cases hp : m.periods with
    | none => rfl
    | some ps => rfl

/-- C10: every shaped match has exactly two score rows whose `team_id`s
are, in order, its `localteam_id` and `visitorteam_id`; every shaped
fixture has exactly two score rows carrying, in order, the home and
away participant ids. -/
theorem claim_C10_scores_order (m : RawMatch) (f : RawFixture) :
    (shapeMatch m).scores.length = 2
    ∧ (shapeMatch m).scores.map ShapedScoreRow.team_id
        = [(shapeMatch m).localteam_id, (shapeMatch m).visitorteam_id]
    ∧ (shapeFixture f).scores.length = 2
    ∧ (shapeFixture f).scores.map FixtureScoreRow.participant_id
        = [(f.participants.find? (fun p => p.meta.location == "home")).map Participant.id,
           (f.participants.find? (fun p => p.meta.location == "away")).map Participant.id] :=
  ⟨rfl, rfl, rfl, rfl⟩

end Football
